import Mathlib

/-!
Verification of the Junos upgrade utility (`src/junos_upgrade.py`).

The development shallowly embeds the orchestration logic of the script:

* `probe_device` — the post-reboot reconnection polling loop, modelled over
  discrete integer time where each `time.sleep(10)` advances the clock by
  exactly 10 units and a connection attempt takes no time;
* `check_image_on_device`, `copy_image_to_device`, `install_image`,
  `verify_version`, `mainRun` — the orchestrator `main()`, modelled as a pure
  function of a `World` oracle that fixes the outcome of every external call
  (connect, facts, remote listing, local file existence, copy, install,
  reboot, probe).  The run produces a terminal `Outcome`, the process exit
  code, and a trace of externally visible events (session opens/closes and
  remote mutation calls);
* `load_config` — configuration resolution with Python's falsy `or`
  (command-line argument, then environment variable, then default) and the
  `is None` validation of required fields.
-/

namespace JunosUpgrade

/-- Outcome of one connection attempt inside the probing loop:
the attempt succeeds, raises `ConnectError`, or raises some other
exception (both exception kinds are caught by the loop body). -/
inductive AttemptResult where
  | connected
  | connectError
  | otherError
deriving DecidableEq, Repr

/-- The `while time.time() < deadline` loop of `probe_device`
(src/junos_upgrade.py lines 127-137).  `connect k` is the result of the
`k`-th connection attempt; `t` is the current clock.  A failed attempt is
followed by `time.sleep(10)`, advancing the clock by 10.  Returns whether a
connection was obtained, the time at which the loop finished, and the list
of times at which attempts were made. -/
def probeLoop (connect : Nat → AttemptResult) (deadline : Int) (t : Int) (k : Nat) :
    Bool × Int × List Int :=
  if _h : t < deadline then
    match connect k with
    | .connected => (true, t, [t])
    | .connectError =>
        let r := probeLoop connect deadline (t + 10) (k + 1)
        (r.1, r.2.1, t :: r.2.2)
    | .otherError =>
        let r := probeLoop connect deadline (t + 10) (k + 1)
        (r.1, r.2.1, t :: r.2.2)
  else
    (false, t, [])
termination_by (deadline - t).toNat
decreasing_by all_goals omega

/-- `probe_device(host, user, password, timeout)`
(src/junos_upgrade.py lines 122-140): sets `deadline = time.time() + timeout`
with the clock at `t0` and runs the polling loop from attempt `0`. -/
def probe_device (connect : Nat → AttemptResult) (t0 : Int) (timeout : Int) :
    Bool × Int × List Int :=
  probeLoop connect (t0 + timeout) t0 0

/-- The times `t, t + 10, …, t + 10 * (q - 1)` of `q` consecutive polling
attempts spaced by the fixed 10-unit interval. -/
def attemptTimes (t : Int) (q : Nat) : List Int :=
  (List.range q).map (fun i : Nat => t + 10 * (i : Int))

/-- Python `str.startswith(p)`: `p` is a character-list prefix of `s`. -/
def pyStartsWith (s p : String) : Bool :=
  p.data.isPrefixOf s.data

/-- Python `str.endswith(p)`: `p` is a character-list suffix of `s`. -/
def pyEndsWith (s p : String) : Bool :=
  p.data.isSuffixOf s.data

/-- Externally visible events of one orchestrator run: session lifecycle
(the pre-upgrade session and the post-reboot session are distinct handles)
and the remote mutation calls. `copyCall` is the `sw.safe_copy` transport
call, `installCall` the `sw.install` call, `rebootCall` the `sw.reboot`
call. -/
inductive Event where
  | openPre
  | closePre
  | openPost
  | closePost
  | copyCall
  | installCall
  | rebootCall
deriving DecidableEq, Repr

/-- Result of the remote directory listing `fs.ls(remote_path)` in
`check_image_on_device`: the call raises `RpcError` (caught), raises some
other exception (uncaught, propagates to the top-level handler), returns a
dict without a `files` key, or returns a list of entries whose optional
`name` field is compared against the image name. -/
inductive LsResult where
  | rpcError
  | otherException
  | noFiles
  | files (entries : List (Option String))
deriving DecidableEq, Repr

/-- Result of a fallible remote call (`sw.safe_copy`, `sw.install`): the
call reports success, reports failure, or raises an exception (which the
surrounding `try` turns into a `False` return). -/
inductive CallResult where
  | ok
  | fail
  | exn
deriving DecidableEq, Repr

def CallResult.isOk : CallResult → Bool
  | .ok => true
  | .fail => false
  | .exn => false

/-- Oracle fixing the outcome of every external interaction of one run:
whether the initial connect succeeds, the `version` entry of the
pre-upgrade device facts (`dev.facts.get('version')`, `none` when absent),
the remote listing result, whether the local image file exists on disk, the
copy and install call results, whether `sw.reboot()` raises, whether the
post-reboot probe finds the device, and the `version` entry of the
post-reboot facts. -/
structure World where
  connectOk : Bool
  preVersion : Option String
  ls : LsResult
  localExists : Bool
  copyResult : CallResult
  installResult : CallResult
  rebootRaises : Bool
  probeOk : Bool
  postVersion : Option String
deriving DecidableEq, Repr

/-- What the `dev` variable of `main` holds when the `finally` block runs:
the still-open pre-upgrade session, `None` (reassigned by a failed probe),
or the open post-reboot session.  The pre-upgrade session explicitly closed
before the reboot has `connected == False`, so the `finally` guard skips it;
that case is covered by `noneDev`/`postOpen` depending on the probe. -/
inductive DevState where
  | preOpen
  | noneDev
  | postOpen
deriving DecidableEq, Repr

/-- Terminal outcome of a run, one per exit path of `main`
(src/junos_upgrade.py lines 244-316). `genericFailure` is the top-level
`except Exception` handler. -/
inductive Outcome where
  | connectionFailed
  | alreadyUpToDate
  | imageCopyFailed
  | installFailed
  | rebootTimedOut
  | versionMismatch
  | success
  | genericFailure
deriving DecidableEq, Repr

/-- `check_image_on_device(dev, remote_path, image_name)`
(src/junos_upgrade.py lines 142-163).  `RpcError` and a listing without a
`files` key both yield `False`; any other exception from `fs.ls`
propagates (modelled as `.error`); otherwise the entries are scanned for an
exact name match (`file_entry.get('name') == image_name`). -/
def check_image_on_device (ls : LsResult) (image_name : String) : Except Unit Bool :=
  match ls with
  | .otherException => .error ()
  | .rpcError => .ok false
  | .noFiles => .ok false
  | .files entries => .ok (entries.any (fun e => e == some image_name))

/-- `copy_image_to_device(dev, local_path, remote_path, image_name)`
(src/junos_upgrade.py lines 165-194).  If the local file is absent the
function returns `False` before any transport call; otherwise `safe_copy`
is invoked and success is reported only when it returns truthy (an
exception is caught and reported as failure).  Returns the result and the
transport calls made. -/
def copy_image_to_device (localExists : Bool) (copyResult : CallResult) :
    Bool × List Event :=
  if localExists then (copyResult.isOk, [.copyCall]) else (false, [])

/-- `install_image(dev, remote_path, image_name)`
(src/junos_upgrade.py lines 196-226).  `sw.install` is always invoked; on
reported success `sw.reboot()` is invoked in the same step and the function
returns `True` (unless the reboot call itself raises, in which case the
`except` yields `False` — the reboot was still requested).  On reported
failure or an install exception the function returns `False` with no
reboot call. -/
def install_image (installResult : CallResult) (rebootRaises : Bool) :
    Bool × List Event :=
  match installResult with
  | .ok => (!rebootRaises, [.installCall, .rebootCall])
  | .fail => (false, [.installCall])
  | .exn => (false, [.installCall])

/-- `verify_version(dev, expected)` (src/junos_upgrade.py lines 228-242):
`dev.facts.get("version", "")` defaults to the empty string, so a missing
version compares as a mismatch rather than raising. -/
def verify_version (postVersion : Option String) (expected : String) : Bool :=
  pyStartsWith (postVersion.getD "") expected

/-- The resolved configuration dict produced by `load_config`
(src/junos_upgrade.py lines 54-105). -/
structure LoadedConfig where
  host : String
  user : String
  password : String
  image_name : String
  local_image_dir : String
  remote_path : String
  expected_version : String
  timeout : Int
  local_image_fullpath : String
  remote_image_fullpath : String
deriving DecidableEq, Repr

/-- Lines 266-272 of `main`: copy only when the image is not already on the
device; when it is, the step trivially succeeds with no transport call. -/
def copyPhase (w : World) (imageExists : Bool) : Bool × List Event :=
  if imageExists then (true, []) else copy_image_to_device w.localExists w.copyResult

/-- The `try` block of `main` (src/junos_upgrade.py lines 259-311), given
the configuration and the oracle.  Produces the terminal outcome, the
return value of `main` (the process exit code), the events of the block,
and what `dev` holds when the `finally` clause runs. -/
def mainBody (cfg : LoadedConfig) (w : World) : Outcome × Nat × List Event × DevState :=
  match w.preVersion with
  | none =>
      -- `None.startswith(...)` raises; caught by the top-level handler.
      (.genericFailure, 1, [], .preOpen)
  | some v =>
      if pyStartsWith v cfg.expected_version then
        (.alreadyUpToDate, 0, [], .preOpen)
      else
        match check_image_on_device w.ls cfg.image_name with
        | .error _ => (.genericFailure, 1, [], .preOpen)
        | .ok imageExists =>
            let copyStep := copyPhase w imageExists
            if copyStep.1 then
              let inst := install_image w.installResult w.rebootRaises
              if inst.1 then
                if w.probeOk then
                  if verify_version w.postVersion cfg.expected_version then
                    (.success, 0, copyStep.2 ++ inst.2 ++ [.closePre, .openPost], .postOpen)
                  else
                    (.versionMismatch, 1, copyStep.2 ++ inst.2 ++ [.closePre, .openPost],
                      .postOpen)
                else
                  (.rebootTimedOut, 1, copyStep.2 ++ inst.2 ++ [.closePre], .noneDev)
              else
                (.installFailed, 1, copyStep.2 ++ inst.2, .preOpen)
            else
              (.imageCopyFailed, 1, copyStep.2, .preOpen)

/-- `main()` (src/junos_upgrade.py lines 244-316): connect, run the `try`
block, then run the `finally` clause, which closes whatever open session
`dev` still refers to.  Produces the terminal outcome, the process exit
code, and the full event trace of the run. -/
def mainRun (cfg : LoadedConfig) (w : World) : Outcome × Nat × List Event :=
  if w.connectOk then
    let body := mainBody cfg w
    let closes : List Event :=
      match body.2.2.2 with
      | .preOpen => [.closePre]
      | .noneDev => []
      | .postOpen => [.closePost]
    (body.1, body.2.1, .openPre :: body.2.2.1 ++ closes)
  else
    (.connectionFailed, 1, [])

/-- Command-line arguments as parsed by `argparse`
(src/junos_upgrade.py lines 60-71): every string option is absent or a
string; `timeout` has the parser default 720. -/
structure Args where
  host : Option String
  user : Option String
  password : Option String
  image : Option String
  local_path : Option String
  remote_path : Option String
  expected_version : Option String
  timeout : Int
deriving DecidableEq, Repr

/-- The environment variables read by `load_config`; `none` means the
variable is unset (an empty-string value is `some ""`). -/
structure Env where
  junos_host : Option String
  junos_user : Option String
  junos_password : Option String
  junos_image : Option String
  junos_image_path : Option String
  remote_path : Option String
  expected_version : Option String
deriving DecidableEq, Repr

/-- Python falsy `or` on an optional string, as in
`args.host or os.getenv("JUNOS_HOST")`: the left value falls through when
it is `None` or the empty string. -/
def pyOr (a b : Option String) : Option String :=
  match a with
  | some s => if s = "" then b else some s
  | none => b

/-- `args.x or os.getenv(VAR, default)`: `os.getenv` with a default
returns the value of the variable whenever it is set (even if empty) and
the default otherwise, so the combined result is a plain string. -/
def pyOrD (a : Option String) (e : Option String) (d : String) : String :=
  match a with
  | some s => if s = "" then e.getD d else s
  | none => e.getD d

/-- `os.path.join` restricted to the shapes used here. -/
def pathJoin (a b : String) : String :=
  if pyStartsWith b "/" then b
  else if a = "" then b
  else if pyEndsWith a "/" then a ++ b
  else a ++ "/" ++ b

/-- `load_config()` (src/junos_upgrade.py lines 54-105): resolve each field
as command-line argument `or` environment variable `or` default, reject
(`sys.exit(1)`, modelled as `.error 1`) when any field other than the
password `is None`, then prompt for the password when it is `None` or
empty.  `promptedPassword` is what `getpass` would return. -/
def load_config (args : Args) (env : Env) (promptedPassword : String) :
    Except Nat LoadedConfig :=
  let host := pyOr args.host env.junos_host
  let user := pyOr args.user env.junos_user
  let password := pyOr args.password env.junos_password
  let image_name := pyOr args.image env.junos_image
  let local_image_dir := pyOr args.local_path env.junos_image_path
  let remote_path := pyOrD args.remote_path env.remote_path "/var/tmp/usb"
  let expected_version := pyOrD args.expected_version env.expected_version "24.2R2.18"
  if host = none ∨ user = none ∨ image_name = none ∨ local_image_dir = none then
    .error 1
  else
    let pw :=
      match password with
      | none => promptedPassword
      | some s => if s = "" then promptedPassword else s
    .ok
      { host := host.getD ""
        user := user.getD ""
        password := pw
        image_name := image_name.getD ""
        local_image_dir := local_image_dir.getD ""
        remote_path := remote_path
        expected_version := expected_version
        timeout := args.timeout
        local_image_fullpath := pathJoin (local_image_dir.getD "") (image_name.getD "")
        remote_image_fullpath := pathJoin remote_path (image_name.getD "") }

lemma attemptTimes_succ (t : Int) (q : Nat) :
    attemptTimes t (q + 1) = t :: attemptTimes (t + 10) q := by
  unfold attemptTimes
  rw [List.range_succ_eq_map, List.map_cons, List.map_map]
  simp only [Nat.cast_zero, mul_zero, add_zero]
  congr 1
  apply List.map_congr_left
  intro i _
  simp only [Function.comp_apply, Nat.succ_eq_add_one]
  push_cast
  ring

/-- When the loop guard fails the loop exits at once with no attempt made. -/
lemma probeLoop_not_lt (connect : Nat → AttemptResult) {deadline t : Int} (k : Nat)
    (h : ¬ t < deadline) : probeLoop connect deadline t k = (false, t, []) := by
  rw [probeLoop, dif_neg h]

/-- One unfolding of the loop body when the deadline has not yet passed. -/
lemma probeLoop_lt (connect : Nat → AttemptResult) {deadline t : Int} (k : Nat)
    (h : t < deadline) :
    probeLoop connect deadline t k =
      match connect k with
      | .connected => (true, t, [t])
      | .connectError =>
          let r := probeLoop connect deadline (t + 10) (k + 1)
          (r.1, r.2.1, t :: r.2.2)
      | .otherError =>
          let r := probeLoop connect deadline (t + 10) (k + 1)
          (r.1, r.2.1, t :: r.2.2) := by
  rw [probeLoop, dif_pos h]

/-- Closed form of the polling loop for a connector that never succeeds:
the loop makes `⌈(deadline - t) / 10⌉` attempts, at times `t, t+10, …`,
and exits at the first multiple of 10 past the deadline. -/
lemma probeLoop_fail_closed (connect : Nat → AttemptResult)
    (hfail : ∀ j, connect j ≠ .connected) :
    ∀ (n : Nat) (deadline t : Int) (k : Nat), (deadline - t).toNat ≤ n →
      probeLoop connect deadline t k =
        (false, t + 10 * (((deadline - t).toNat + 9) / 10 : Nat),
          attemptTimes t (((deadline - t).toNat + 9) / 10)) := by
  intro n
  induction n with
  | zero =>
    intro deadline t k hn
    have hlt : ¬ t < deadline := by omega
    rw [probeLoop_not_lt connect k hlt]
    have hq : ((deadline - t).toNat + 9) / 10 = 0 := by omega
    simp [hq, attemptTimes]
  | succ n ih =>
    intro deadline t k hn
    by_cases hlt : t < deadline
    · rw [probeLoop_lt connect k hlt]
      have hq : ((deadline - t).toNat + 9) / 10
          = ((deadline - (t + 10)).toNat + 9) / 10 + 1 := by omega
      have hrec := ih deadline (t + 10) (k + 1) (by omega)
      cases hc : connect k with
      | connected => exact absurd hc (hfail k)
      | connectError =>
        simp only [hrec, hq, attemptTimes_succ, Prod.mk.injEq]
        refine ⟨trivial, by push_cast; ring, trivial⟩
      | otherError =>
        simp only [hrec, hq, attemptTimes_succ, Prod.mk.injEq]
        refine ⟨trivial, by push_cast; ring, trivial⟩
    · rw [probeLoop_not_lt connect k hlt]
      have hq : ((deadline - t).toNat + 9) / 10 = 0 := by omega
      simp [hq, attemptTimes]

/-- If the loop exits with failure, the exit time is at or past the deadline. -/
lemma probeLoop_false_deadline (connect : Nat → AttemptResult) :
    ∀ (n : Nat) (deadline t : Int) (k : Nat), (deadline - t).toNat ≤ n →
      (probeLoop connect deadline t k).1 = false →
      deadline ≤ (probeLoop connect deadline t k).2.1 := by
  intro n
  induction n with
  | zero =>
    intro deadline t k hn
    have hlt : ¬ t < deadline := by omega
    rw [probeLoop_not_lt connect k hlt]
    intro _
    show deadline ≤ t
    omega
  | succ n ih =>
    intro deadline t k hn
    by_cases hlt : t < deadline
    · rw [probeLoop_lt connect k hlt]
      cases hc : connect k with
      | connected => simp
      | connectError => exact ih deadline (t + 10) (k + 1) (by omega)
      | otherError => exact ih deadline (t + 10) (k + 1) (by omega)
    · rw [probeLoop_not_lt connect k hlt]
      intro _
      show deadline ≤ t
      omega

/-- If the loop exits with success, some attempt actually connected. -/
lemma probeLoop_true_connected (connect : Nat → AttemptResult) :
    ∀ (n : Nat) (deadline t : Int) (k : Nat), (deadline - t).toNat ≤ n →
      (probeLoop connect deadline t k).1 = true →
      ∃ j, connect j = .connected := by
  intro n
  induction n with
  | zero =>
    intro deadline t k hn
    have hlt : ¬ t < deadline := by omega
    rw [probeLoop_not_lt connect k hlt]
    intro h
    exact absurd h (by simp)
  | succ n ih =>
    intro deadline t k hn
    by_cases hlt : t < deadline
    · rw [probeLoop_lt connect k hlt]
      cases hc : connect k with
      | connected => exact fun _ => ⟨k, hc⟩
      | connectError => exact ih deadline (t + 10) (k + 1) (by omega)
      | otherError => exact ih deadline (t + 10) (k + 1) (by omega)
    · rw [probeLoop_not_lt connect k hlt]
      intro h
      exact absurd h (by simp)

/-- The loop result depends only on which attempts succeed: two connectors
whose failures differ only in the kind of exception raised produce
identical runs. -/
lemma probeLoop_exn_insensitive (connect connect' : Nat → AttemptResult)
    (hsame : ∀ j, connect j = .connected ↔ connect' j = .connected) :
    ∀ (n : Nat) (deadline t : Int) (k : Nat), (deadline - t).toNat ≤ n →
      probeLoop connect deadline t k = probeLoop connect' deadline t k := by
  intro n
  induction n with
  | zero =>
    intro deadline t k hn
    have hlt : ¬ t < deadline := by omega
    rw [probeLoop_not_lt connect k hlt, probeLoop_not_lt connect' k hlt]
  | succ n ih =>
    intro deadline t k hn
    by_cases hlt : t < deadline
    · rw [probeLoop_lt connect k hlt, probeLoop_lt connect' k hlt]
      have hrec := ih deadline (t + 10) (k + 1) (by omega)
      cases hc : connect k with
      | connected =>
        rw [(hsame k).mp hc]
      | connectError =>
        cases hc' : connect' k with
        | connected => exact absurd ((hsame k).mpr hc') (by rw [hc]; simp)
        | connectError => rw [hrec]
        | otherError => rw [hrec]
      | otherError =>
        cases hc' : connect' k with
        | connected => exact absurd ((hsame k).mpr hc') (by rw [hc]; simp)
        | connectError => rw [hrec]
        | otherError => rw [hrec]
    · rw [probeLoop_not_lt connect k hlt, probeLoop_not_lt connect' k hlt]

lemma attemptTimes_length (t : Int) (q : Nat) : (attemptTimes t q).length = q := by
  simp [attemptTimes]

/-- C3: for every timeout `T > 0` and a connector failing on every attempt,
`probe_device` polls at times `t0, t0 + 10, t0 + 20, …` (a fixed 10-unit
interval) and returns the failure result at time `t0 + 10 * ⌈T/10⌉`, which
is no earlier than `T` after the start and no later than `T` plus one
polling interval. -/
theorem probe_fail_timing_c3 (connect : Nat → AttemptResult) (t0 T : Int)
    (hT : 0 < T) (hfail : ∀ j, connect j ≠ .connected) :
    probe_device connect t0 T =
      (false, t0 + 10 * ((T.toNat + 9) / 10 : Nat), attemptTimes t0 ((T.toNat + 9) / 10)) ∧
    t0 + T ≤ t0 + 10 * ((T.toNat + 9) / 10 : Nat) ∧
    t0 + 10 * ((T.toNat + 9) / 10 : Nat) ≤ t0 + T + 10 := by
  have h := probeLoop_fail_closed connect hfail (t0 + T - t0).toNat (t0 + T) t0 0 le_rfl
  rw [add_sub_cancel_left] at h
  refine ⟨?_, by omega, by omega⟩
  unfold probe_device
  exact h

theorem probe_fail_timing_c3_witness :
    (0 : Int) < 25 ∧
    (probe_device (fun _ => AttemptResult.connectError) 0 25 =
        (false, (0 : Int) + 10 * (((25 : Int).toNat + 9) / 10 : Nat),
          attemptTimes 0 (((25 : Int).toNat + 9) / 10)) ∧
      (0 : Int) + 25 ≤ 0 + 10 * (((25 : Int).toNat + 9) / 10 : Nat) ∧
      (0 : Int) + 10 * (((25 : Int).toNat + 9) / 10 : Nat) ≤ 0 + 25 + 10) :=
  ⟨by norm_num,
    probe_fail_timing_c3 (fun _ => AttemptResult.connectError) 0 25 (by norm_num)
      (fun j h => by simp at h)⟩

/-- C7: during reboot-reconnection probing no exception raised by an attempt
aborts the loop — connectors whose failing attempts differ only in the kind
of exception raised produce identical runs — and the loop exits only when a
connection succeeds or the deadline elapses: a failure result is returned
only at or past the deadline, and a success result means some attempt
actually connected. -/
theorem probe_loop_resilience_c7 :
    (∀ (connect connect' : Nat → AttemptResult) (t0 T : Int),
        (∀ j, connect j = .connected ↔ connect' j = .connected) →
        probe_device connect t0 T = probe_device connect' t0 T) ∧
    (∀ (connect : Nat → AttemptResult) (t0 T : Int),
        (probe_device connect t0 T).1 = false →
        t0 + T ≤ (probe_device connect t0 T).2.1) ∧
    (∀ (connect : Nat → AttemptResult) (t0 T : Int),
        (probe_device connect t0 T).1 = true → ∃ j, connect j = .connected) := by
  refine ⟨?_, ?_, ?_⟩
  · intro connect connect' t0 T hsame
    unfold probe_device
    exact probeLoop_exn_insensitive connect connect' hsame (t0 + T - t0).toNat (t0 + T) t0 0 le_rfl
  · intro connect t0 T h
    unfold probe_device at h ⊢
    exact probeLoop_false_deadline connect (t0 + T - t0).toNat (t0 + T) t0 0 le_rfl h
  · intro connect t0 T h
    unfold probe_device at h
    exact probeLoop_true_connected connect (t0 + T - t0).toNat (t0 + T) t0 0 le_rfl h

theorem probe_loop_resilience_c7_witness :
    probe_device (fun _ => AttemptResult.connectError) 0 15 =
      probe_device (fun _ => AttemptResult.otherError) 0 15 :=
  probe_loop_resilience_c7.1 (fun _ => AttemptResult.connectError)
    (fun _ => AttemptResult.otherError) 0 15 (fun j => by simp)

/-- C10: for every timeout `T ≤ 0` the polling loop body is never entered:
`probe_device` makes no connection attempt (empty attempt list) and returns
the failure value immediately, at the start time. -/
theorem probe_nonpos_timeout_c10 (connect : Nat → AttemptResult) (t0 T : Int)
    (hT : T ≤ 0) : probe_device connect t0 T = (false, t0, []) := by
  unfold probe_device
  exact probeLoop_not_lt connect 0 (by omega)

theorem probe_nonpos_timeout_c10_witness :
    ((0 : Int) ≤ 0 ∧ probe_device (fun _ => AttemptResult.connected) 5 0 = (false, 5, [])) ∧
    ((-7 : Int) ≤ 0 ∧ probe_device (fun _ => AttemptResult.connected) 5 (-7) = (false, 5, [])) :=
  ⟨⟨le_refl 0, probe_nonpos_timeout_c10 (fun _ => AttemptResult.connected) 5 0 le_rfl⟩,
    ⟨by norm_num, probe_nonpos_timeout_c10 (fun _ => AttemptResult.connected) 5 (-7) (by norm_num)⟩⟩

/-- A fully resolved configuration used to instantiate universally
quantified results on concrete runs. -/
def cfgEx : LoadedConfig where
  host := "r1"
  user := "admin"
  password := "pw"
  image_name := "junos-install.tgz"
  local_image_dir := "/images"
  remote_path := "/var/tmp/usb"
  expected_version := "24.2R2"
  timeout := 720
  local_image_fullpath := "/images/junos-install.tgz"
  remote_image_fullpath := "/var/tmp/usb/junos-install.tgz"

/-- A run whose pre-upgrade facts already report a matching version. -/
def wUpToDate : World where
  connectOk := true
  preVersion := some "24.2R2.18"
  ls := .noFiles
  localExists := false
  copyResult := .fail
  installResult := .fail
  rebootRaises := false
  probeOk := false
  postVersion := none

/-- A run whose pre-upgrade facts lack a `version` entry. -/
def wNoVersion : World where
  connectOk := true
  preVersion := none
  ls := .noFiles
  localExists := false
  copyResult := .fail
  installResult := .fail
  rebootRaises := false
  probeOk := false
  postVersion := none

/-- C1: when the pre-upgrade facts report a version starting with the
configured expected-version prefix, the run terminates with outcome
`AlreadyUpToDate` and exit code 0, its trace is exactly open-then-close of
the pre-upgrade session, and in particular no copy, install, or reboot
call is made. -/
theorem already_up_to_date_c1 (cfg : LoadedConfig) (w : World) (v : String)
    (hconn : w.connectOk = true) (hv : w.preVersion = some v)
    (hsw : pyStartsWith v cfg.expected_version = true) :
    mainRun cfg w = (.alreadyUpToDate, 0, [.openPre, .closePre]) ∧
    Event.copyCall ∉ (mainRun cfg w).2.2 ∧
    Event.installCall ∉ (mainRun cfg w).2.2 ∧
    Event.rebootCall ∉ (mainRun cfg w).2.2 := by
  have h : mainRun cfg w = (.alreadyUpToDate, 0, [.openPre, .closePre]) := by
    simp [mainRun, mainBody, hconn, hv, hsw]
  refine ⟨h, ?_, ?_, ?_⟩ <;> simp [h]

theorem already_up_to_date_c1_witness :
    (wUpToDate.connectOk = true ∧ wUpToDate.preVersion = some "24.2R2.18" ∧
      pyStartsWith "24.2R2.18" cfgEx.expected_version = true) ∧
    (mainRun cfgEx wUpToDate = (.alreadyUpToDate, 0, [.openPre, .closePre]) ∧
      Event.copyCall ∉ (mainRun cfgEx wUpToDate).2.2 ∧
      Event.installCall ∉ (mainRun cfgEx wUpToDate).2.2 ∧
      Event.rebootCall ∉ (mainRun cfgEx wUpToDate).2.2) :=
  ⟨⟨rfl, rfl, by decide⟩,
    already_up_to_date_c1 cfgEx wUpToDate "24.2R2.18" rfl rfl (by decide)⟩

/-- C9: when the pre-upgrade facts contain no `version` entry, the
`startswith` call raises on `None` and the run terminates through the
top-level `except Exception` handler with exit code 1 (the session still
closed), not with `AlreadyUpToDate` or any other modeled outcome. -/
theorem missing_version_generic_failure_c9 (cfg : LoadedConfig) (w : World)
    (hconn : w.connectOk = true) (hv : w.preVersion = none) :
    mainRun cfg w = (.genericFailure, 1, [.openPre, .closePre]) := by
  simp [mainRun, mainBody, hconn, hv]

theorem missing_version_generic_failure_c9_witness :
    (wNoVersion.connectOk = true ∧ wNoVersion.preVersion = none) ∧
    mainRun cfgEx wNoVersion = (.genericFailure, 1, [.openPre, .closePre]) :=
  ⟨⟨rfl, rfl⟩, missing_version_generic_failure_c9 cfgEx wNoVersion rfl rfl⟩

section PathLemmas

variable (cfg : LoadedConfig) (w : World) (v : String)

/-- Exit path: the initial connect fails. -/
lemma mainRun_connect_fail (h : w.connectOk = false) :
    mainRun cfg w = (.connectionFailed, 1, []) := by
  simp [mainRun, h]

/-- Exit path: the facts have no version entry; top-level handler. -/
lemma mainRun_no_version (hc : w.connectOk = true) (hv : w.preVersion = none) :
    mainRun cfg w = (.genericFailure, 1, [.openPre, .closePre]) := by
  simp [mainRun, mainBody, hc, hv]

/-- Exit path: the running version already matches the expected prefix. -/
lemma mainRun_up_to_date (hc : w.connectOk = true) (hv : w.preVersion = some v)
    (hsw : pyStartsWith v cfg.expected_version = true) :
    mainRun cfg w = (.alreadyUpToDate, 0, [.openPre, .closePre]) := by
  simp [mainRun, mainBody, hc, hv, hsw]

/-- Exit path: `fs.ls` raises a non-`RpcError` exception; top-level handler. -/
lemma mainRun_ls_exn (hc : w.connectOk = true) (hv : w.preVersion = some v)
    (hsw : pyStartsWith v cfg.expected_version = false)
    (hch : check_image_on_device w.ls cfg.image_name = .error ()) :
    mainRun cfg w = (.genericFailure, 1, [.openPre, .closePre]) := by
  simp [mainRun, mainBody, hc, hv, hsw, hch]

/-- Exit path: the copy step fails (local file missing or copy failure). -/
lemma mainRun_copy_fail (b : Bool) (ev1 : List Event) (hc : w.connectOk = true)
    (hv : w.preVersion = some v) (hsw : pyStartsWith v cfg.expected_version = false)
    (hch : check_image_on_device w.ls cfg.image_name = .ok b)
    (hcp : copyPhase w b = (false, ev1)) :
    mainRun cfg w = (.imageCopyFailed, 1, .openPre :: (ev1 ++ [.closePre])) := by
  simp [mainRun, mainBody, hc, hv, hsw, hch, hcp]

/-- Exit path: `install_image` returns `False`. -/
lemma mainRun_install_fail (b : Bool) (ev1 ev2 : List Event) (hc : w.connectOk = true)
    (hv : w.preVersion = some v) (hsw : pyStartsWith v cfg.expected_version = false)
    (hch : check_image_on_device w.ls cfg.image_name = .ok b)
    (hcp : copyPhase w b = (true, ev1))
    (hin : install_image w.installResult w.rebootRaises = (false, ev2)) :
    mainRun cfg w = (.installFailed, 1, .openPre :: (ev1 ++ (ev2 ++ [.closePre]))) := by
  simp [mainRun, mainBody, hc, hv, hsw, hch, hcp, hin]

/-- Exit path: install and reboot succeed but the probe times out. -/
lemma mainRun_reboot_timeout (b : Bool) (ev1 ev2 : List Event) (hc : w.connectOk = true)
    (hv : w.preVersion = some v) (hsw : pyStartsWith v cfg.expected_version = false)
    (hch : check_image_on_device w.ls cfg.image_name = .ok b)
    (hcp : copyPhase w b = (true, ev1))
    (hin : install_image w.installResult w.rebootRaises = (true, ev2))
    (hpo : w.probeOk = false) :
    mainRun cfg w = (.rebootTimedOut, 1, .openPre :: (ev1 ++ (ev2 ++ [.closePre]))) := by
  simp [mainRun, mainBody, hc, hv, hsw, hch, hcp, hin, hpo]

/-- Exit path: the device comes back and the new version matches. -/
lemma mainRun_success (b : Bool) (ev1 ev2 : List Event) (hc : w.connectOk = true)
    (hv : w.preVersion = some v) (hsw : pyStartsWith v cfg.expected_version = false)
    (hch : check_image_on_device w.ls cfg.image_name = .ok b)
    (hcp : copyPhase w b = (true, ev1))
    (hin : install_image w.installResult w.rebootRaises = (true, ev2))
    (hpo : w.probeOk = true)
    (hvv : verify_version w.postVersion cfg.expected_version = true) :
    mainRun cfg w =
      (.success, 0, .openPre :: (ev1 ++ (ev2 ++ [.closePre, .openPost, .closePost]))) := by
  simp [mainRun, mainBody, hc, hv, hsw, hch, hcp, hin, hpo, hvv]

/-- Exit path: the device comes back but the new version does not match. -/
lemma mainRun_version_mismatch (b : Bool) (ev1 ev2 : List Event) (hc : w.connectOk = true)
    (hv : w.preVersion = some v) (hsw : pyStartsWith v cfg.expected_version = false)
    (hch : check_image_on_device w.ls cfg.image_name = .ok b)
    (hcp : copyPhase w b = (true, ev1))
    (hin : install_image w.installResult w.rebootRaises = (true, ev2))
    (hpo : w.probeOk = true)
    (hvv : verify_version w.postVersion cfg.expected_version = false) :
    mainRun cfg w =
      (.versionMismatch, 1,
        .openPre :: (ev1 ++ (ev2 ++ [.closePre, .openPost, .closePost]))) := by
  simp [mainRun, mainBody, hc, hv, hsw, hch, hcp, hin, hpo, hvv]

end PathLemmas

/-- The copy step emits no event or exactly the one transport copy call. -/
lemma copyPhase_events (w : World) (b cok : Bool) (ev1 : List Event)
    (h : copyPhase w b = (cok, ev1)) : ev1 = [] ∨ ev1 = [Event.copyCall] := by
  cases b <;> cases hle : w.localExists <;> cases hcr : w.copyResult <;>
    simp [copyPhase, copy_image_to_device, hle, hcr, CallResult.isOk, Prod.mk.injEq] at h <;>
      simp [h]

/-- A successful install step always emitted the install call followed by
the reboot call. -/
lemma install_true_events (ir : CallResult) (rr : Bool) (ev2 : List Event)
    (h : install_image ir rr = (true, ev2)) :
    ev2 = [Event.installCall, Event.rebootCall] := by
  cases ir <;> cases rr <;> simp [install_image, Prod.mk.injEq] at h
  simp [h]

/-- A failed install step emitted the install call, and also the reboot
call exactly when the install itself had reported success. -/
lemma install_false_events (ir : CallResult) (rr : Bool) (ev2 : List Event)
    (h : install_image ir rr = (false, ev2)) :
    ev2 = [Event.installCall] ∨ ev2 = [Event.installCall, Event.rebootCall] := by
  cases ir <;> cases rr <;> simp [install_image, Prod.mk.injEq] at h <;> simp [h]

/-- When the install call reports success, the reboot call is always among
the events of the install step, whatever the step returns. -/
lemma install_ok_reboot (rr : Bool) (iok : Bool) (ev2 : List Event)
    (h : install_image .ok rr = (iok, ev2)) : Event.rebootCall ∈ ev2 := by
  cases rr <;> simp [install_image, Prod.mk.injEq] at h <;> simp [← h.2]

/-- C2: on every exit path of the orchestrator — normal return, early
failure return, or the modeled mid-sequence exceptions — each session the
run opens is closed exactly once and no close is issued for a session that
was never opened: in every trace the pre-upgrade session is opened at most
once with equally many closes, and likewise for the post-reboot session. -/
theorem session_close_exactly_once_c2 (cfg : LoadedConfig) (w : World) :
    ((mainRun cfg w).2.2.count .openPre ≤ 1 ∧
      (mainRun cfg w).2.2.count .closePre = (mainRun cfg w).2.2.count .openPre) ∧
    ((mainRun cfg w).2.2.count .openPost ≤ 1 ∧
      (mainRun cfg w).2.2.count .closePost = (mainRun cfg w).2.2.count .openPost) := by
  cases hco : w.connectOk with
  | false => rw [mainRun_connect_fail cfg w hco]; decide
  | true =>
    cases hpv : w.preVersion with
    | none => rw [mainRun_no_version cfg w hco hpv]; decide
    | some v =>
      cases hsw : pyStartsWith v cfg.expected_version with
      | true => rw [mainRun_up_to_date cfg w v hco hpv hsw]; decide
      | false =>
        cases hch : check_image_on_device w.ls cfg.image_name with
        | error u =>
          cases u
          rw [mainRun_ls_exn cfg w v hco hpv hsw hch]; decide
        | ok b =>
          rcases hcp : copyPhase w b with ⟨cok, ev1⟩
          have hev1 := copyPhase_events w b cok ev1 hcp
          cases cok with
          | false =>
            rw [mainRun_copy_fail cfg w v b ev1 hco hpv hsw hch hcp]
            rcases hev1 with rfl | rfl <;> decide
          | true =>
            rcases hin : install_image w.installResult w.rebootRaises with ⟨iok, ev2⟩
            cases iok with
            | false =>
              have hev2 := install_false_events _ _ _ hin
              rw [mainRun_install_fail cfg w v b ev1 ev2 hco hpv hsw hch hcp hin]
              rcases hev1 with rfl | rfl <;> rcases hev2 with rfl | rfl <;> decide
            | true =>
              have hev2 := install_true_events _ _ _ hin
              subst hev2
              cases hpo : w.probeOk with
              | false =>
                rw [mainRun_reboot_timeout cfg w v b ev1 _ hco hpv hsw hch hcp hin hpo]
                rcases hev1 with rfl | rfl <;> decide
              | true =>
                cases hvv : verify_version w.postVersion cfg.expected_version with
                | false =>
                  rw [mainRun_version_mismatch cfg w v b ev1 _ hco hpv hsw hch hcp hin hpo hvv]
                  rcases hev1 with rfl | rfl <;> decide
                | true =>
                  rw [mainRun_success cfg w v b ev1 _ hco hpv hsw hch hcp hin hpo hvv]
                  rcases hev1 with rfl | rfl <;> decide

/-- C4: whenever the install call is made and reports success the reboot
call appears in the same run (the device is never left installed but not
rebooted), and whenever the install call is made and reports failure the
run terminates with outcome `InstallFailed` and exit code 1. -/
theorem install_reboot_coupling_c4 (cfg : LoadedConfig) (w : World) :
    (Event.installCall ∈ (mainRun cfg w).2.2 → w.installResult = .ok →
        Event.rebootCall ∈ (mainRun cfg w).2.2) ∧
    (Event.installCall ∈ (mainRun cfg w).2.2 → w.installResult = .fail →
        (mainRun cfg w).1 = .installFailed ∧ (mainRun cfg w).2.1 = 1) := by
  cases hco : w.connectOk with
  | false => rw [mainRun_connect_fail cfg w hco]; simp
  | true =>
    cases hpv : w.preVersion with
    | none => rw [mainRun_no_version cfg w hco hpv]; simp
    | some v =>
      cases hsw : pyStartsWith v cfg.expected_version with
      | true => rw [mainRun_up_to_date cfg w v hco hpv hsw]; simp
      | false =>
        cases hch : check_image_on_device w.ls cfg.image_name with
        | error u =>
          cases u
          rw [mainRun_ls_exn cfg w v hco hpv hsw hch]; simp
        | ok b =>
          rcases hcp : copyPhase w b with ⟨cok, ev1⟩
          have hev1 := copyPhase_events w b cok ev1 hcp
          cases cok with
          | false =>
            rw [mainRun_copy_fail cfg w v b ev1 hco hpv hsw hch hcp]
            rcases hev1 with rfl | rfl <;> simp
          | true =>
            rcases hin : install_image w.installResult w.rebootRaises with ⟨iok, ev2⟩
            cases iok with
            | false =>
              rw [mainRun_install_fail cfg w v b ev1 ev2 hco hpv hsw hch hcp hin]
              constructor
              · intro _ hir
                have hmem : Event.rebootCall ∈ ev2 :=
                  install_ok_reboot w.rebootRaises false ev2 (hir ▸ hin)
                simp [hmem]
              · intro _ _
                exact ⟨rfl, rfl⟩
            | true =>
              have hev2 := install_true_events _ _ _ hin
              subst hev2
              have hfail : w.installResult = .fail → False := by
                intro hir
                rw [hir] at hin
                simp [install_image] at hin
              cases hpo : w.probeOk with
              | false =>
                rw [mainRun_reboot_timeout cfg w v b ev1 _ hco hpv hsw hch hcp hin hpo]
                exact ⟨fun _ _ => by rcases hev1 with rfl | rfl <;> decide,
                  fun _ hir => absurd hir (fun h => hfail h)⟩
              | true =>
                cases hvv : verify_version w.postVersion cfg.expected_version with
                | false =>
                  rw [mainRun_version_mismatch cfg w v b ev1 _ hco hpv hsw hch hcp hin hpo hvv]
                  exact ⟨fun _ _ => by rcases hev1 with rfl | rfl <;> decide,
                    fun _ hir => absurd hir (fun h => hfail h)⟩
                | true =>
                  rw [mainRun_success cfg w v b ev1 _ hco hpv hsw hch hcp hin hpo hvv]
                  exact ⟨fun _ _ => by rcases hev1 with rfl | rfl <;> decide,
                    fun _ hir => absurd hir (fun h => hfail h)⟩

/-- A world whose install call is made and reports success: version stale,
image already staged remotely, install ok, probe ok, matching new version. -/
def wInstallOk : World where
  connectOk := true
  preVersion := some "23.4R1.10"
  ls := .files [some "junos-install.tgz"]
  localExists := true
  copyResult := .ok
  installResult := .ok
  rebootRaises := false
  probeOk := true
  postVersion := some "24.2R2.18"

theorem install_reboot_coupling_c4_witness :
    (Event.installCall ∈ (mainRun cfgEx wInstallOk).2.2 ∧ wInstallOk.installResult = .ok) ∧
    Event.rebootCall ∈ (mainRun cfgEx wInstallOk).2.2 :=
  ⟨⟨by decide, rfl⟩,
    (install_reboot_coupling_c4 cfgEx wInstallOk).1 (by decide) rfl⟩

/-- A world where the image is absent remotely and the local file is
missing on disk. -/
def wCopyFail : World where
  connectOk := true
  preVersion := some "23.4R1.10"
  ls := .noFiles
  localExists := false
  copyResult := .fail
  installResult := .fail
  rebootRaises := false
  probeOk := false
  postVersion := none

/-- C5: when the image is absent on the remote staging path and the local
image file does not exist on disk, the run terminates with outcome
`ImageCopyFailed` and exit code 1, makes no install call (and no copy
transport call either, since the local check fails first), and still
closes the pre-upgrade session exactly once. -/
theorem copy_fail_no_install_c5 (cfg : LoadedConfig) (w : World) (v : String)
    (hc : w.connectOk = true) (hv : w.preVersion = some v)
    (hsw : pyStartsWith v cfg.expected_version = false)
    (hch : check_image_on_device w.ls cfg.image_name = .ok false)
    (hlocal : w.localExists = false) :
    mainRun cfg w = (.imageCopyFailed, 1, [.openPre, .closePre]) ∧
    Event.installCall ∉ (mainRun cfg w).2.2 ∧
    (mainRun cfg w).2.2.count .closePre = 1 := by
  have hcp : copyPhase w false = (false, []) := by
    simp [copyPhase, copy_image_to_device, hlocal]
  have h := mainRun_copy_fail cfg w v false [] hc hv hsw hch hcp
  simp only [List.nil_append] at h
  refine ⟨h, ?_, ?_⟩ <;> rw [h] <;> decide

theorem copy_fail_no_install_c5_witness :
    (wCopyFail.connectOk = true ∧ wCopyFail.preVersion = some "23.4R1.10" ∧
      pyStartsWith "23.4R1.10" cfgEx.expected_version = false ∧
      check_image_on_device wCopyFail.ls cfgEx.image_name = .ok false ∧
      wCopyFail.localExists = false) ∧
    (mainRun cfgEx wCopyFail = (.imageCopyFailed, 1, [.openPre, .closePre]) ∧
      Event.installCall ∉ (mainRun cfgEx wCopyFail).2.2 ∧
      (mainRun cfgEx wCopyFail).2.2.count .closePre = 1) :=
  ⟨⟨rfl, rfl, by decide, rfl, rfl⟩,
    copy_fail_no_install_c5 cfgEx wCopyFail "23.4R1.10" rfl rfl (by decide) rfl rfl⟩

/-- C6: a failed remote listing — an `RpcError` or a response without a
`files` collection — makes the image-presence check return `false`, the
whole run behaves exactly as if the listing had reported the image absent,
and (when the earlier steps reach the staging phase and the local file
exists) the orchestrator proceeds to attempt the copy; the listing failure
never by itself terminates the run. -/
theorem rpc_failure_nonfatal_c6 (cfg : LoadedConfig) (w : World) :
    check_image_on_device .rpcError cfg.image_name = .ok false ∧
    check_image_on_device .noFiles cfg.image_name = .ok false ∧
    mainRun cfg { w with ls := .rpcError } = mainRun cfg { w with ls := .noFiles } ∧
    (∀ v, w.connectOk = true → w.preVersion = some v →
      pyStartsWith v cfg.expected_version = false → w.localExists = true →
      Event.copyCall ∈ (mainRun cfg { w with ls := .rpcError }).2.2) := by
  refine ⟨rfl, rfl, rfl, ?_⟩
  intro v hc hv hsw hle
  set w' : World := { w with ls := LsResult.rpcError } with hw'
  have hc' : w'.connectOk = true := hc
  have hv' : w'.preVersion = some v := hv
  have hle' : w'.localExists = true := hle
  have hch : check_image_on_device w'.ls cfg.image_name = .ok false := rfl
  have hcp : copyPhase w' false = (w'.copyResult.isOk, [Event.copyCall]) := by
    simp [copyPhase, copy_image_to_device, hle', hle]
  cases hcr : w'.copyResult.isOk with
  | false =>
    rw [mainRun_copy_fail cfg w' v false [Event.copyCall] hc' hv' hsw hch (by rw [hcp, hcr])]
    decide
  | true =>
    rcases hin : install_image w'.installResult w'.rebootRaises with ⟨iok, ev2⟩
    cases iok with
    | false =>
      rw [mainRun_install_fail cfg w' v false [Event.copyCall] ev2 hc' hv' hsw hch
        (by rw [hcp, hcr]) hin]
      simp
    | true =>
      cases hpo : w'.probeOk with
      | false =>
        rw [mainRun_reboot_timeout cfg w' v false [Event.copyCall] ev2 hc' hv' hsw hch
          (by rw [hcp, hcr]) hin hpo]
        simp
      | true =>
        cases hvv : verify_version w'.postVersion cfg.expected_version with
        | false =>
          rw [mainRun_version_mismatch cfg w' v false [Event.copyCall] ev2 hc' hv' hsw hch
            (by rw [hcp, hcr]) hin hpo hvv]
          simp
        | true =>
          rw [mainRun_success cfg w' v false [Event.copyCall] ev2 hc' hv' hsw hch
            (by rw [hcp, hcr]) hin hpo hvv]
          simp

/-- A world reaching the staging phase with an `RpcError` listing and a
local image present. -/
def wRpcProbe : World where
  connectOk := true
  preVersion := some "23.4R1.10"
  ls := .rpcError
  localExists := true
  copyResult := .fail
  installResult := .fail
  rebootRaises := false
  probeOk := false
  postVersion := none

theorem rpc_failure_nonfatal_c6_witness :
    (wRpcProbe.connectOk = true ∧ wRpcProbe.preVersion = some "23.4R1.10" ∧
      pyStartsWith "23.4R1.10" cfgEx.expected_version = false ∧
      wRpcProbe.localExists = true) ∧
    Event.copyCall ∈ (mainRun cfgEx { wRpcProbe with ls := .rpcError }).2.2 :=
  ⟨⟨rfl, rfl, by decide, rfl⟩,
    (rpc_failure_nonfatal_c6 cfgEx wRpcProbe).2.2.2 "23.4R1.10" rfl rfl (by decide) rfl⟩

/-- Command line with no option given (argparse leaves every string option
`None`; `timeout` keeps its parser default 720). -/
def argsNone : Args where
  host := none
  user := none
  password := none
  image := none
  local_path := none
  remote_path := none
  expected_version := none
  timeout := 720

/-- Environment with the host variable SET TO THE EMPTY STRING and the
other required variables populated. -/
def envEmptyHost : Env where
  junos_host := some ""
  junos_user := some "admin"
  junos_password := some "secret"
  junos_image := some "junos-install.tgz"
  junos_image_path := some "/images"
  remote_path := none
  expected_version := none

/-- Environment with every variable unset. -/
def envEmpty : Env where
  junos_host := none
  junos_user := none
  junos_password := none
  junos_image := none
  junos_image_path := none
  remote_path := none
  expected_version := none

/-- Complete command line except for the password. -/
def argsFull : Args where
  host := some "r1"
  user := some "admin"
  password := none
  image := some "junos-install.tgz"
  local_path := some "/images"
  remote_path := none
  expected_version := none
  timeout := 720

/-- The configuration `load_config argsFull envEmpty "pw"` accepts. -/
def cfgPrompted : LoadedConfig where
  host := "r1"
  user := "admin"
  password := "pw"
  image_name := "junos-install.tgz"
  local_image_dir := "/images"
  remote_path := "/var/tmp/usb"
  expected_version := "24.2R2.18"
  timeout := 720
  local_image_fullpath := "/images/junos-install.tgz"
  remote_image_fullpath := "/var/tmp/usb/junos-install.tgz"

/-- C8 counterexample: the loader checks `is None`, not non-emptiness.
With no `--host` argument and the host environment variable set to the
empty string, the resolved host is the empty string, which passes
validation: the loader accepts a configuration whose host field is empty,
so orchestration starts with an empty required field, contradicting the
claimed non-emptiness invariant. -/
theorem config_validation_c8_counterexample :
    Except.map (fun c : LoadedConfig => c.host)
        (load_config argsNone envEmptyHost "prompted") = .ok "" :=
  rfl

/-- C8 (amended): the loader checks presence, not non-emptiness: it rejects
with exit code 1 whenever a required field (host, user, image name, local
image directory) resolves to `None`, every accepted configuration has all
required fields resolved to some string (possibly empty), and in every
accepted configuration the password is the secure-prompt result whenever
the resolved password was absent or empty — so the password is obtained by
prompt before any connection attempt. -/
theorem config_validation_c8 (args : Args) (env : Env) (p : String) :
    (pyOr args.host env.junos_host = none ∨ pyOr args.user env.junos_user = none ∨
        pyOr args.image env.junos_image = none ∨
        pyOr args.local_path env.junos_image_path = none →
      load_config args env p = .error 1) ∧
    (∀ c, load_config args env p = .ok c →
      (pyOr args.host env.junos_host).isSome = true ∧
      (pyOr args.user env.junos_user).isSome = true ∧
      (pyOr args.image env.junos_image).isSome = true ∧
      (pyOr args.local_path env.junos_image_path).isSome = true ∧
      ((pyOr args.password env.junos_password = none ∨
          pyOr args.password env.junos_password = some "") → c.password = p)) := by
  constructor
  · intro h
    simp only [load_config]
    rw [if_pos h]
  · intro c hok
    simp only [load_config] at hok
    by_cases hcond : pyOr args.host env.junos_host = none ∨
        pyOr args.user env.junos_user = none ∨ pyOr args.image env.junos_image = none ∨
        pyOr args.local_path env.junos_image_path = none
    · rw [if_pos hcond] at hok
      exact absurd hok (by simp)
    · rw [if_neg hcond] at hok
      push_neg at hcond
      obtain ⟨h1, h2, h3, h4⟩ := hcond
      injection hok with hc
      refine ⟨Option.isSome_iff_ne_none.mpr h1, Option.isSome_iff_ne_none.mpr h2,
        Option.isSome_iff_ne_none.mpr h3, Option.isSome_iff_ne_none.mpr h4, ?_⟩
      intro hpw
      rw [← hc]
      rcases hpw with h | h <;> simp [h]

theorem config_validation_c8_witness :
    load_config argsNone envEmpty "pw" = .error 1 ∧ cfgPrompted.password = "pw" :=
  ⟨(config_validation_c8 argsNone envEmpty "pw").1 (Or.inl rfl),
    ((config_validation_c8 argsFull envEmpty "pw").2 cfgPrompted rfl).2.2.2.2 (Or.inl rfl)⟩

end JunosUpgrade
